import Mathlib

/-!
Verification development for the `gemini_server` chat relay (`src/main.py`).

The program is a single-endpoint Flask relay: `generate_prompt` builds a flat
prompt from a persona, prior history and the new user message; `call_Yi_api`
(resp. `call_google_api`) posts the prompt to an upstream LLM HTTP API;
`extract_text` parses the upstream JSON body, tolerating the Gemini
(`candidates`) and OpenAI-compatible (`choices`) shapes; `process_chat`
chains the three and appends the assistant turn to the history; the `/chat`
route wraps the result in a JSON envelope with status 200 or 500.

We embed the Python values the relay manipulates as an inductive `PyVal`
(None, bool, int, str, list, dict), model the fallible Python operations
(`.get` attribute access, `[0]` indexing) in the `Except String` monad where
the error carries `str(e)` of the Python exception, and translate each
function of `src/main.py` line by line.  The network is an oracle
`net : String → UpstreamResult` giving, for each prompt, either the parsed
JSON body of a successful upstream response or the `str(e)` of a
`requests.exceptions.RequestException`.
-/

/-- A Python value as manipulated by the relay: the JSON-like universe of
`None`, booleans, integers, strings, lists and string-keyed dicts. -/
inductive PyVal where
  | none : PyVal
  | bool : Bool → PyVal
  | int : Int → PyVal
  | str : String → PyVal
  | list : List PyVal → PyVal
  | dict : List (String × PyVal) → PyVal

/-- Python type name of a value, as it appears in exception messages. -/
def PyVal.typeName : PyVal → String
  | .none => "NoneType"
  | .bool _ => "bool"
  | .int _ => "int"
  | .str _ => "str"
  | .list _ => "list"
  | .dict _ => "dict"

/-- Python truthiness (`if v:`): `None`, `False`, `0`, `""`, `[]` and
`{}` are falsy, everything else is truthy. -/
def PyVal.truthy : PyVal → Bool
  | .none => false
  | .bool b => b
  | .int n => n != 0
  | .str s => s != ""
  | .list xs => !xs.isEmpty
  | .dict es => !es.isEmpty

/-- Python `v.get(key, default)`: on a dict, the value bound to `key` or the
default; on any other value an `AttributeError` is raised, whose `str` is
the message modelled here. -/
def PyVal.get (v : PyVal) (key : String) (default : PyVal) : Except String PyVal :=
  match v with
  | .dict entries => .ok ((entries.lookup key).getD default)
  | _ => .error ("\x27" ++ v.typeName ++ "\x27 object has no attribute \x27get\x27")

/-- Python `v[0]`: head of a list (`IndexError` when empty), first character
of a string (`IndexError` when empty), `KeyError` on a string-keyed dict
(`str(KeyError(0))` is `"0"`), `TypeError` otherwise. -/
def PyVal.index0 : PyVal → Except String PyVal
  | .list [] => .error "list index out of range"
  | .list (x :: _) => .ok x
  | .str s => if s.isEmpty then .error "string index out of range" else .ok (.str (s.take 1))
  | .dict _ => .error "0"
  | v => .error ("\x27" ++ v.typeName ++ "\x27 object is not subscriptable")

/-- Python `sep.join(xs)` for a list of strings. -/
def joinSep (sep : String) : List String → String
  | [] => ""
  | [x] => x
  | x :: y :: xs => x ++ sep ++ joinSep sep (y :: xs)

mutual

/-- Python `repr` restricted to the `PyVal` universe (string escaping inside
`repr` of a `str` is elided: the relay only ever renders plain text). -/
def PyVal.pyRepr : PyVal → String
  | .none => "None"
  | .bool true => "True"
  | .bool false => "False"
  | .int n => toString n
  | .str s => "\x27" ++ s ++ "\x27"
  | .list xs => "[" ++ pyReprSeq xs ++ "]"
  | .dict es => "\x7b" ++ pyReprEntries es ++ "\x7d"

/-- Comma-joined `repr`s of the elements of a Python list. -/
def pyReprSeq : List PyVal → String
  | [] => ""
  | [v] => PyVal.pyRepr v
  | v :: w :: vs => PyVal.pyRepr v ++ ", " ++ pyReprSeq (w :: vs)

/-- Comma-joined `repr`s of the entries of a Python dict. -/
def pyReprEntries : List (String × PyVal) → String
  | [] => ""
  | [(k, v)] => "\x27" ++ k ++ "\x27: " ++ PyVal.pyRepr v
  | (k, v) :: e :: es =>
      "\x27" ++ k ++ "\x27: " ++ PyVal.pyRepr v ++ ", " ++ pyReprEntries (e :: es)

end

/-- Python `str(v)`, as applied by an f-string such as
`f"Assistant: \x7bbot_reply\x7d"`: the identity on strings, `repr`
otherwise. -/
def PyVal.pyStr : PyVal → String
  | .str s => s
  | v => v.pyRepr

/-- `src/main.py:65` — the default handed to `.get('text', ...)` and
`.get('content', ...)` when the key is missing. -/
def clarifyFallback : String :=
  "I\x27m not sure how to respond to that. Could you clarify?"

/-- `src/main.py:68` — returned when `parts` is empty. -/
def noPartsFallback : String :=
  "I\x27m having trouble finding the right words. Please try again."

/-- `src/main.py:76` — the generic fallback when neither `candidates` nor
`choices` yields anything. -/
def noChoicesFallback : String :=
  "I\x27m sorry, but I couldn\x27t generate a response at the moment."

/-- `src/main.py:110,135` — the fixed user-facing fallback returned when the
upstream HTTP call fails. -/
def upstreamFallback : String :=
  "I\x27m sorry, I couldn\x27t process your request at the moment. Please try again later."

/-- The body of the `try:` block of `extract_text` (`src/main.py:59-76`),
translated statement by statement; a raised Python exception is an
`Except.error` carrying `str(e)`. -/
def extract_text_core (response_data : PyVal) : Except String PyVal :=
  match response_data.get "candidates" (.list []) with
  | .error e => .error e
  | .ok candidates =>
    if candidates.truthy then
      match candidates.index0 with
      | .error e => .error e
      | .ok c0 =>
        match c0.get "content" (.dict []) with
        | .error e => .error e
        | .ok content =>
          match content.get "parts" (.list []) with
          | .error e => .error e
          | .ok parts =>
            if parts.truthy then
              match parts.index0 with
              | .error e => .error e
              | .ok p0 => p0.get "text" (.str clarifyFallback)
            else .ok (.str noPartsFallback)
    else
      match response_data.get "choices" (.list []) with
      | .error e => .error e
      | .ok choices =>
        if choices.truthy then
          match choices.index0 with
          | .error e => .error e
          | .ok c0 =>
            match c0.get "message" (.dict []) with
            | .error e => .error e
            | .ok message => message.get "content" (.str clarifyFallback)
        else .ok (.str noChoicesFallback)

/-- `extract_text` (`src/main.py:55-80`): the `try/except Exception` wrapper
around `extract_text_core`, converting any exception into the
`f"Something went wrong: \x7bstr(e)\x7d"` string. -/
def extract_text (response_data : PyVal) : PyVal :=
  match extract_text_core response_data with
  | .ok v => v
  | .error e => .str ("Something went wrong: " ++ e)

/-- `generate_prompt` (`src/main.py:83-92`): appends the user turn to a copy
of `history` (`history + [...]` allocates a fresh list in Python — hence the
pure embedding) and flattens persona plus turns into one prompt; `history`
defaults to `None`, replaced by `[]`. -/
def generate_prompt (user_input : String) (role : String)
    (history : Option (List String)) : String × List String :=
  let history := history.getD []
  let conversation_history := history ++ ["User: " ++ user_input]
  let prompt := role ++ "\n" ++ joinSep "\n" conversation_history ++ "\nAssistant:"
  (prompt, conversation_history)

/-- Outcome of the outbound HTTP POST in `call_Yi_api`/`call_google_api`:
either a 2xx response with parsed JSON body, or a
`requests.exceptions.RequestException` (transport failure or
`raise_for_status` on a non-2xx status) carrying `str(e)`. -/
inductive UpstreamResult where
  | success : PyVal → UpstreamResult
  | failure : String → UpstreamResult

/-- `call_Yi_api` (`src/main.py:113-135`), with the network abstracted as an
oracle `net` from prompts to upstream outcomes: on success, the extracted
text and no error; on a `RequestException`, the fixed fallback plus
`str(e)`. -/
def call_Yi_api (net : String → UpstreamResult) (prompt : String) :
    PyVal × Option String :=
  match net prompt with
  | .success body => (extract_text body, Option.none)
  | .failure e => (.str upstreamFallback, Option.some e)

/-- `process_chat` (`src/main.py:138-154`): builds the prompt, dispatches,
and on success appends `f"Assistant: \x7bbot_reply\x7d"` to the history;
on error returns the history without an assistant turn. -/
def process_chat (net : String → UpstreamResult) (user_input : String)
    (role : String) (history : Option (List String)) :
    PyVal × List String × Option String :=
  let pr := generate_prompt user_input role history
  let br := call_Yi_api net pr.1
  match br.2 with
  | Option.some e => (br.1, pr.2, Option.some e)
  | Option.none => (br.1, pr.2 ++ ["Assistant: " ++ br.1.pyStr], Option.none)

/-- The `/chat` route (`src/main.py:157-177`) for a request whose fields have
the expected types (`message` a string, `role` a string,
`conversation_history` a list of strings — the defaults `""`,
`default_role`, `[]` are supplied by the caller of this model just as
`data.get` supplies them): returns the JSON body (as a `PyVal` dict, in
`jsonify` key order) together with the HTTP status code. -/
def chat (net : String → UpstreamResult) (user_input : String)
    (role : String) (history : List String) : PyVal × Nat :=
  let r := process_chat net user_input role (Option.some history)
  match r.2.2 with
  | Option.some e => (.dict [("error", .str e), ("message", r.1)], 500)
  | Option.none =>
      (.dict [("reply", r.1),
              ("conversation_history", .list (r.2.1.map PyVal.str))], 200)

/-- The keys of a JSON object body, in order; `[]` on a non-dict. -/
def PyVal.keys : PyVal → List String
  | .dict es => es.map Prod.fst
  | _ => []

example : extract_text (.dict [("candidates",
    .list [.dict [("content", .dict [("parts",
      .list [.dict [("text", .str "Paris is lovely")]])])]])])
    = .str "Paris is lovely" := rfl

example : extract_text (.dict [("choices",
    .list [.dict [("message", .dict [("content", .str "Hello")])]])])
    = .str "Hello" := rfl

example : extract_text (.dict []) = .str noChoicesFallback := rfl

example : extract_text (.dict [("candidates", .list [])])
    = .str noChoicesFallback := rfl

example : extract_text (.dict [("candidates",
    .list [.dict [("content", .dict [("parts", .list [])])]])])
    = .str noPartsFallback := rfl

example : extract_text (.int 0)
    = .str "Something went wrong: \x27int\x27 object has no attribute \x27get\x27" := by
  rfl

theorem joinSep_append_single (sep : String) (l : List String) (x : String) :
    ∃ p, joinSep sep (l ++ [x]) = p ++ x := by
  induction l with
  | nil => exact ⟨"", rfl⟩
  | cons a t ih =>
    obtain ⟨p, hp⟩ := ih
    cases t with
    | nil => exact ⟨a ++ sep, rfl⟩
    | cons b t2 =>
      refine ⟨a ++ sep ++ p, ?_⟩
      show joinSep sep (a :: b :: (t2 ++ [x])) = a ++ sep ++ p ++ x
      rw [joinSep]
      simp only [List.cons_append] at hp
      rw [hp]
      simp [String.append_assoc]

/-- Claim C4: the prompt built by `generate_prompt` equals the persona, a
newline, the updated history joined by newlines, and the trailing
`"\nAssistant:"` cue; consequently it ends with the suffix
`"User: " ++ userInput ++ "\nAssistant:"`. -/
theorem generate_prompt_shape (user_input role : String) (history : List String) :
    (generate_prompt user_input role (Option.some history)).1
      = role ++ "\n"
        ++ joinSep "\n" (generate_prompt user_input role (Option.some history)).2
        ++ "\nAssistant:"
    ∧ ∃ p, (generate_prompt user_input role (Option.some history)).1
      = p ++ ("User: " ++ user_input ++ "\nAssistant:") := by
  constructor
  · rfl
  · obtain ⟨p, hp⟩ := joinSep_append_single "\n" history ("User: " ++ user_input)
    refine ⟨role ++ "\n" ++ p, ?_⟩
    show role ++ "\n" ++ joinSep "\n" (history ++ ["User: " ++ user_input])
        ++ "\nAssistant:" = _
    rw [hp]
    simp [String.append_assoc]

/-- Claim C5: the updated history returned by `generate_prompt` is the input
history with `"User: " ++ userInput` appended, one element longer, and with
the original history intact as its prefix (the Python code builds
`history + [...]`, a fresh list, leaving the caller-supplied list
unmodified — which is what makes this pure embedding faithful). -/
theorem generate_prompt_history_update (user_input role : String)
    (history : List String) :
    (generate_prompt user_input role (Option.some history)).2
      = history ++ ["User: " ++ user_input]
    ∧ (generate_prompt user_input role (Option.some history)).2.length
      = history.length + 1
    ∧ (generate_prompt user_input role (Option.some history)).2.take history.length
      = history := by
  refine ⟨rfl, by simp [generate_prompt], by simp [generate_prompt]⟩

/-- Claim C1, counterexample: on `\x7b"candidates": []\x7d` — the key present
but mapped to an empty list — `extract_text` does NOT return a
clarification-request fallback distinct from the generic fallback: the empty
list is falsy, the candidates branch is skipped, and with no `choices`
present the function returns exactly the generic
couldn\x27t-generate fallback. -/
theorem extract_candidates_empty_returns_generic :
    extract_text (PyVal.dict [("candidates", PyVal.list [])])
      = PyVal.str noChoicesFallback
    ∧ noChoicesFallback ≠ clarifyFallback
    ∧ noChoicesFallback ≠ noPartsFallback := by
  refine ⟨rfl, by decide, by decide⟩

/-- Claim C1 as amended: if `candidates` is present but empty, the branch is
skipped (empty list falsy) and, with no `choices` key, `extract_text`
returns the generic couldn\x27t-generate fallback without raising; if
`parts` inside `candidates[0].content` is empty, it returns the
clarification fallback `noPartsFallback`, which is distinct from the
generic fallback, again without raising. -/
theorem extract_empty_cases_amended
    (entries cs ct : List (String × PyVal)) (r1 : List PyVal) :
    ((entries.lookup "candidates" = Option.some (PyVal.list [])
      → entries.lookup "choices" = Option.none
      → extract_text (PyVal.dict entries) = PyVal.str noChoicesFallback)
    ∧ (entries.lookup "candidates"
          = Option.some (PyVal.list (PyVal.dict cs :: r1))
      → cs.lookup "content" = Option.some (PyVal.dict ct)
      → ct.lookup "parts" = Option.some (PyVal.list [])
      → extract_text (PyVal.dict entries) = PyVal.str noPartsFallback))
    ∧ noPartsFallback ≠ noChoicesFallback := by
  refine ⟨⟨?_, ?_⟩, by decide⟩
  · intro h1 h2
    simp [extract_text, extract_text_core, PyVal.get, PyVal.truthy, h1, h2]
  · intro h1 h2 h3
    simp [extract_text, extract_text_core, PyVal.get, PyVal.truthy,
      PyVal.index0, h1, h2, h3]

theorem extract_empty_cases_amended_witness :
    extract_text (PyVal.dict [("candidates", PyVal.list [])])
      = PyVal.str noChoicesFallback
    ∧ extract_text (PyVal.dict [("candidates",
        PyVal.list [PyVal.dict [("content", PyVal.dict [("parts",
          PyVal.list [])])]])]) = PyVal.str noPartsFallback := by
  constructor
  · exact (extract_empty_cases_amended
      [("candidates", PyVal.list [])] [] [] []).1.1 rfl rfl
  · exact (extract_empty_cases_amended
      [("candidates", PyVal.list [PyVal.dict [("content", PyVal.dict
        [("parts", PyVal.list [])])]])]
      [("content", PyVal.dict [("parts", PyVal.list [])])]
      [("parts", PyVal.list [])] []).1.2 rfl rfl rfl

/-- Claim C2: `extract_text` follows the priority order — whenever
`candidates[0].content.parts[0].text` exists it returns exactly that text;
on the concrete Gemini document it returns `"Paris is lovely"`; with no
`candidates` key but `choices[0].message.content` present it returns
`"Hello"`; and on the empty document it returns the generic
couldn\x27t-generate fallback. -/
theorem extract_priority_order
    (entries cs ct p0 : List (String × PyVal)) (r1 r2 : List PyVal) (tv : PyVal) :
    ((entries.lookup "candidates"
        = Option.some (PyVal.list (PyVal.dict cs :: r1))
      → cs.lookup "content" = Option.some (PyVal.dict ct)
      → ct.lookup "parts" = Option.some (PyVal.list (PyVal.dict p0 :: r2))
      → p0.lookup "text" = Option.some tv
      → extract_text (PyVal.dict entries) = tv)
    ∧ extract_text (PyVal.dict [("candidates",
        PyVal.list [PyVal.dict [("content", PyVal.dict [("parts",
          PyVal.list [PyVal.dict [("text", PyVal.str "Paris is lovely")]])])]])])
      = PyVal.str "Paris is lovely")
    ∧ extract_text (PyVal.dict [("choices",
        PyVal.list [PyVal.dict [("message", PyVal.dict
          [("content", PyVal.str "Hello")])]])])
      = PyVal.str "Hello"
    ∧ extract_text (PyVal.dict []) = PyVal.str noChoicesFallback := by
  refine ⟨⟨?_, rfl⟩, rfl, rfl⟩
  intro h1 h2 h3 h4
  simp [extract_text, extract_text_core, PyVal.get, PyVal.truthy,
    PyVal.index0, h1, h2, h3, h4]

theorem extract_priority_order_witness :
    extract_text (PyVal.dict [("candidates",
        PyVal.list [PyVal.dict [("content", PyVal.dict [("parts",
          PyVal.list [PyVal.dict [("text", PyVal.str "42")]])])]])])
      = PyVal.str "42" :=
  (extract_priority_order
    [("candidates", PyVal.list [PyVal.dict [("content", PyVal.dict [("parts",
      PyVal.list [PyVal.dict [("text", PyVal.str "42")]])])]])]
    [("content", PyVal.dict [("parts",
      PyVal.list [PyVal.dict [("text", PyVal.str "42")]])])]
    [("parts", PyVal.list [PyVal.dict [("text", PyVal.str "42")]])]
    [("text", PyVal.str "42")] [] [] (PyVal.str "42")).1.1 rfl rfl rfl rfl

/-- Claim C3: `extract_text` is total — for every input value it either
returns the successful result of the extraction body, or the body raised
and the result is the fallback string embedding `str(e)`; no exception
propagates.  Concretely, on the non-dict input `0` the `AttributeError`
raised by `.get` is embedded in the returned fallback. -/
theorem extract_text_total :
    (∀ v : PyVal,
      (∃ t, extract_text_core v = Except.ok t ∧ extract_text v = t)
      ∨ (∃ e, extract_text_core v = Except.error e
          ∧ extract_text v = PyVal.str ("Something went wrong: " ++ e)))
    ∧ extract_text (PyVal.int 0)
      = PyVal.str
        "Something went wrong: \x27int\x27 object has no attribute \x27get\x27" := by
  constructor
  · intro v
    cases h : extract_text_core v with
    | ok t => exact Or.inl ⟨t, rfl, by simp [extract_text, h]⟩
    | error e => exact Or.inr ⟨e, rfl, by simp [extract_text, h]⟩
  · rfl

/-- Claim C10: when `parts` is non-empty but its first element has no
`text` key, `extract_text` returns the clarify fallback (the default handed
to `.get('text', ...)`); likewise when `choices` is non-empty (and no
`candidates` key is present) but `choices[0].message` has no `content` key,
it returns the same clarify fallback. -/
theorem missing_text_clarify
    (entries cs ct p0 chs m : List (String × PyVal)) (r1 r2 r3 : List PyVal) :
    ((entries.lookup "candidates"
        = Option.some (PyVal.list (PyVal.dict cs :: r1))
      → cs.lookup "content" = Option.some (PyVal.dict ct)
      → ct.lookup "parts" = Option.some (PyVal.list (PyVal.dict p0 :: r2))
      → p0.lookup "text" = Option.none
      → extract_text (PyVal.dict entries) = PyVal.str clarifyFallback)
    ∧ (entries.lookup "candidates" = Option.none
      → entries.lookup "choices" = Option.some (PyVal.list (PyVal.dict chs :: r3))
      → chs.lookup "message" = Option.some (PyVal.dict m)
      → m.lookup "content" = Option.none
      → extract_text (PyVal.dict entries) = PyVal.str clarifyFallback)) := by
  constructor
  · intro h1 h2 h3 h4
    simp [extract_text, extract_text_core, PyVal.get, PyVal.truthy,
      PyVal.index0, h1, h2, h3, h4]
  · intro h1 h2 h3 h4
    simp [extract_text, extract_text_core, PyVal.get, PyVal.truthy,
      PyVal.index0, h1, h2, h3, h4]

theorem missing_text_clarify_witness :
    extract_text (PyVal.dict [("candidates",
        PyVal.list [PyVal.dict [("content", PyVal.dict [("parts",
          PyVal.list [PyVal.dict []])])]])])
      = PyVal.str clarifyFallback
    ∧ extract_text (PyVal.dict [("choices",
        PyVal.list [PyVal.dict [("message", PyVal.dict [])]])])
      = PyVal.str clarifyFallback := by
  constructor
  · exact (missing_text_clarify
      [("candidates", PyVal.list [PyVal.dict [("content", PyVal.dict
        [("parts", PyVal.list [PyVal.dict []])])]])]
      [("content", PyVal.dict [("parts", PyVal.list [PyVal.dict []])])]
      [("parts", PyVal.list [PyVal.dict []])] [] [] []
      [] [] []).1 rfl rfl rfl rfl
  · exact (missing_text_clarify
      [("choices", PyVal.list [PyVal.dict [("message", PyVal.dict [])]])]
      [] [] [] [("message", PyVal.dict [])] []
      [] [] []).2 rfl rfl rfl rfl

/-- Claim C6: when the upstream HTTP call fails, `call_Yi_api` catches the
failure and returns the fixed fallback string together with the raw error
detail, and the `/chat` endpoint responds with status 500 and a JSON body
carrying both the `error` and the `message` key; the failure never escapes
as an exception (the model is total). -/
theorem upstream_failure_returns_500
    (net : String → UpstreamResult) (u r e : String) (h : List String)
    (hfail : net (generate_prompt u r (Option.some h)).1
      = UpstreamResult.failure e) :
    call_Yi_api net (generate_prompt u r (Option.some h)).1
      = (PyVal.str upstreamFallback, Option.some e)
    ∧ chat net u r h
      = (PyVal.dict [("error", PyVal.str e),
          ("message", PyVal.str upstreamFallback)], 500)
    ∧ "error" ∈ (chat net u r h).1.keys
    ∧ "message" ∈ (chat net u r h).1.keys := by
  have hc : call_Yi_api net (generate_prompt u r (Option.some h)).1
      = (PyVal.str upstreamFallback, Option.some e) := by
    simp [call_Yi_api, hfail]
  have h500 : chat net u r h
      = (PyVal.dict [("error", PyVal.str e),
          ("message", PyVal.str upstreamFallback)], 500) := by
    simp [chat, process_chat, hc]
  refine ⟨hc, h500, ?_, ?_⟩ <;> simp [h500, PyVal.keys]

theorem upstream_failure_returns_500_witness :
    chat (fun _ => UpstreamResult.failure "connection refused") "hi" "persona" []
      = (PyVal.dict [("error", PyVal.str "connection refused"),
          ("message", PyVal.str upstreamFallback)], 500) :=
  (upstream_failure_returns_500
    (fun _ => UpstreamResult.failure "connection refused")
    "hi" "persona" "connection refused" [] rfl).2.1

/-- Claim C7: on a successful upstream call, the `/chat` endpoint returns
status 200 with a body holding the reply and a conversation history equal
to the input history extended by the user turn and the assistant turn — two
elements longer, its second-to-last element `"User: " ++ message` and its
last element the assistant turn built from the reply; an empty input
history thus yields a history of length 2. -/
theorem chat_success_shape
    (net : String → UpstreamResult) (u r : String) (h : List String)
    (body : PyVal)
    (hok : net (generate_prompt u r (Option.some h)).1
      = UpstreamResult.success body) :
    chat net u r h
      = (PyVal.dict [("reply", extract_text body),
          ("conversation_history",
            PyVal.list ((h ++ ["User: " ++ u,
              "Assistant: " ++ (extract_text body).pyStr]).map PyVal.str))], 200)
    ∧ (process_chat net u r (Option.some h)).2.1
      = h ++ ["User: " ++ u, "Assistant: " ++ (extract_text body).pyStr]
    ∧ (process_chat net u r (Option.some h)).2.1.length = h.length + 2 := by
  have hc : call_Yi_api net (generate_prompt u r (Option.some h)).1
      = (extract_text body, Option.none) := by
    simp [call_Yi_api, hok]
  have hp2 : (generate_prompt u r (Option.some h)).2 = h ++ ["User: " ++ u] := rfl
  have hh : (process_chat net u r (Option.some h)).2.1
      = h ++ ["User: " ++ u, "Assistant: " ++ (extract_text body).pyStr] := by
    simp [process_chat, hc, hp2]
  refine ⟨?_, hh, by simp [hh]⟩
  simp [chat, process_chat, hc, hp2]

theorem chat_success_shape_witness :
    chat (fun _ => UpstreamResult.success (PyVal.dict [("candidates",
        PyVal.list [PyVal.dict [("content", PyVal.dict [("parts",
          PyVal.list [PyVal.dict [("text", PyVal.str "Sure!")]])])]])]))
      "Plan a trip to Tokyo" "persona" []
      = (PyVal.dict [("reply", PyVal.str "Sure!"),
          ("conversation_history",
            PyVal.list [PyVal.str "User: Plan a trip to Tokyo",
              PyVal.str "Assistant: Sure!"])], 200) := by
  have := (chat_success_shape
    (fun _ => UpstreamResult.success (PyVal.dict [("candidates",
        PyVal.list [PyVal.dict [("content", PyVal.dict [("parts",
          PyVal.list [PyVal.dict [("text", PyVal.str "Sure!")]])])]])]))
    "Plan a trip to Tokyo" "persona" []
    (PyVal.dict [("candidates",
        PyVal.list [PyVal.dict [("content", PyVal.dict [("parts",
          PyVal.list [PyVal.dict [("text", PyVal.str "Sure!")]])])]])])
    rfl).1
  simpa using this

/-- Claim C8: whenever the upstream call itself succeeds, the reported
error is `none` — regardless of whether extraction fell back — so the
extracted value (fallback or genuine reply) is returned as the reply with
status 200 and recorded in the returned history as the assistant turn: at
the public interface a fallback is indistinguishable from a real reply. -/
theorem extraction_fallback_status_200
    (net : String → UpstreamResult) (u r : String) (h : List String)
    (body : PyVal)
    (hok : net (generate_prompt u r (Option.some h)).1
      = UpstreamResult.success body) :
    (process_chat net u r (Option.some h)).2.2 = Option.none
    ∧ (process_chat net u r (Option.some h)).1 = extract_text body
    ∧ (chat net u r h).2 = 200
    ∧ (chat net u r h).1.keys = ["reply", "conversation_history"]
    ∧ (process_chat net u r (Option.some h)).2.1
      = h ++ ["User: " ++ u, "Assistant: " ++ (extract_text body).pyStr] := by
  have hc : call_Yi_api net (generate_prompt u r (Option.some h)).1
      = (extract_text body, Option.none) := by
    simp [call_Yi_api, hok]
  have hp2 : (generate_prompt u r (Option.some h)).2 = h ++ ["User: " ++ u] := rfl
  refine ⟨?_, ?_, ?_, ?_, ?_⟩ <;>
    simp [chat, process_chat, hc, hp2, PyVal.keys]

theorem extraction_fallback_status_200_witness :
    (process_chat (fun _ => UpstreamResult.success (PyVal.dict [("candidates",
        PyVal.list [PyVal.dict [("content", PyVal.dict [("parts",
          PyVal.list [])])]])])) "hello" "persona" (Option.some [])).2.2
      = Option.none
    ∧ (process_chat (fun _ => UpstreamResult.success (PyVal.dict [("candidates",
        PyVal.list [PyVal.dict [("content", PyVal.dict [("parts",
          PyVal.list [])])]])])) "hello" "persona" (Option.some [])).2.1
      = ["User: hello", "Assistant: " ++ noPartsFallback] := by
  have := extraction_fallback_status_200
    (fun _ => UpstreamResult.success (PyVal.dict [("candidates",
        PyVal.list [PyVal.dict [("content", PyVal.dict [("parts",
          PyVal.list [])])]])])) "hello" "persona" []
    (PyVal.dict [("candidates",
        PyVal.list [PyVal.dict [("content", PyVal.dict [("parts",
          PyVal.list [])])]])]) rfl
  exact ⟨this.1, by simpa using this.2.2.2.2⟩

/-- Claim C9: on the error path no assistant turn is appended — the history
computed by `process_chat` is the input history plus only the new user
turn, and the 500 response body holds exactly the keys `error` and
`message`; the extended history is dropped and never reaches the client. -/
theorem error_path_drops_history
    (net : String → UpstreamResult) (u r e : String) (h : List String)
    (hfail : net (generate_prompt u r (Option.some h)).1
      = UpstreamResult.failure e) :
    (process_chat net u r (Option.some h)).2.1 = h ++ ["User: " ++ u]
    ∧ (chat net u r h).1.keys = ["error", "message"]
    ∧ (chat net u r h).2 = 500 := by
  have hc : call_Yi_api net (generate_prompt u r (Option.some h)).1
      = (PyVal.str upstreamFallback, Option.some e) := by
    simp [call_Yi_api, hfail]
  have hp2 : (generate_prompt u r (Option.some h)).2 = h ++ ["User: " ++ u] := rfl
  refine ⟨?_, ?_, ?_⟩ <;>
    simp [chat, process_chat, hc, hp2, PyVal.keys]

theorem error_path_drops_history_witness :
    (process_chat (fun _ => UpstreamResult.failure "timeout")
      "hi" "persona" (Option.some ["User: earlier", "Assistant: before"])).2.1
      = ["User: earlier", "Assistant: before", "User: hi"]
    ∧ (chat (fun _ => UpstreamResult.failure "timeout")
        "hi" "persona" ["User: earlier", "Assistant: before"]).1.keys
      = ["error", "message"] := by
  have := error_path_drops_history (fun _ => UpstreamResult.failure "timeout")
    "hi" "persona" "timeout" ["User: earlier", "Assistant: before"] rfl
  exact ⟨by simpa using this.1, this.2.1⟩
